import Mathlib

/-!
Shallow embedding of `src/agent-ui/server.js`: a small Express proxy that
serves a static UI and forwards chat / agents-list requests to an upstream
agents service via axios.  HTTP messages are modelled explicitly; the axios
client's documented resolution semantics (resolve on 2xx, reject otherwise,
no timeout unless configured) are embedded so the handlers can be stated as
pure functions of the upstream outcome.
-/

namespace AgentUI

/-- JSON values, modelling the JSON payloads exchanged by the proxy. -/
inductive Json where
  | null : Json
  | bool (b : Bool) : Json
  | num (n : Int) : Json
  | str (s : String) : Json
  | arr (elems : List Json) : Json
  | obj (fields : List (String × Json)) : Json
deriving Repr

/-- An HTTP response as produced by the proxy (`res.status(...).json(...)` /
`res.json(...)` / `res.sendFile(...)`). -/
structure HttpResponse where
  status : Nat
  body : Json
deriving Repr

/-- An HTTP response received from the upstream agents service. -/
structure UpstreamResponse where
  status : Nat
  data : Json
deriving Repr

/-- Outcome of attempting the upstream HTTP call: either an HTTP response was
received (any status), or the transport failed (connection refused etc.), or
the call timed out. -/
inductive UpstreamOutcome where
  | response (r : UpstreamResponse) : UpstreamOutcome
  | networkError (msg : String) : UpstreamOutcome
  | timeout (msg : String) : UpstreamOutcome
deriving Repr

/-- The error value with which an axios promise rejects. -/
inductive AxiosError where
  | network (msg : String) : AxiosError
  | timeoutErr (msg : String) : AxiosError
  | badStatus (r : UpstreamResponse) : AxiosError
deriving Repr

/-- Axios's default `validateStatus`: a received status counts as success iff
it lies in [200, 300). -/
def validateStatus (s : Nat) : Bool := 200 ≤ s && s < 300

/-- Axios resolution semantics: a received 2xx response resolves the promise;
a received non-2xx response, a transport error, or a timeout rejects it. -/
def axiosResolve (o : UpstreamOutcome) : Except AxiosError UpstreamResponse :=
  match o with
  | .response r => if validateStatus r.status then .ok r else .error (.badStatus r)
  | .networkError m => .error (.network m)
  | .timeout m => .error (.timeoutErr m)

/-- True iff the upstream call is treated as a failure (the axios promise
rejects and control reaches the route's catch block). -/
def upstreamFailed (o : UpstreamOutcome) : Bool :=
  match axiosResolve o with
  | .ok _ => false
  | .error _ => true

/-- The request configuration axios sends upstream: URL, method, JSON body if
any, extra headers, and the configured timeout (`none` = axios default, i.e.
no timeout bound). -/
structure AxiosRequestConfig where
  url : String
  method : String
  body : Option Json
  headers : List (String × String)
  timeout : Option Nat
deriving Repr

/-- An incoming HTTP request to the proxy: headers, query parameters, and the
JSON body parsed by `express.json()`. -/
structure IncomingRequest where
  headers : List (String × String)
  query : List (String × String)
  body : Json
deriving Repr

/-- `axios.post(AGENTS_URL + "/chat", req.body)` from the chat route: the only
data placed in the upstream request is the parsed JSON body; no headers or
query parameters of the incoming request are attached, and no timeout is
configured. -/
def chatUpstreamRequest (agentsUrl : String) (reqBody : Json) : AxiosRequestConfig :=
  { url := agentsUrl ++ "/chat"
  , method := "POST"
  , body := some reqBody
  , headers := []
  , timeout := none }

/-- `axios.get(AGENTS_URL + "/agents")` from the agents route: a bare GET with
no body, no forwarded headers, and no timeout configured. -/
def agentsUpstreamRequest (agentsUrl : String) : AxiosRequestConfig :=
  { url := agentsUrl ++ "/agents"
  , method := "GET"
  , body := none
  , headers := []
  , timeout := none }

/-- The constant error body of the chat route's catch block. -/
def chatErrorBody : Json :=
  .obj [("error", .str "Failed to communicate with agents service")]

/-- The constant error body of the agents route's catch block. -/
def agentsErrorBody : Json :=
  .obj [("error", .str "Failed to get agents list")]

/-- The chat route's response as a function of the upstream outcome: on a
resolved axios promise, `res.json(response.data)` (Express default status
200 with the upstream data); on a rejected promise,
`res.status(500).json({error: ...})`. -/
def handleChat (o : UpstreamOutcome) : HttpResponse :=
  match axiosResolve o with
  | .ok r => { status := 200, body := r.data }
  | .error _ => { status := 500, body := chatErrorBody }

/-- The agents route's response as a function of the upstream outcome,
analogous to `handleChat` with its own constant error body. -/
def handleAgents (o : UpstreamOutcome) : HttpResponse :=
  match axiosResolve o with
  | .ok r => { status := 200, body := r.data }
  | .error _ => { status := 500, body := agentsErrorBody }

/-- The full chat route handler: it builds the single upstream request from
the incoming request's parsed body alone, performs that one call (the oracle
supplies the outcome), and produces the response.  The first component is
the list of upstream calls the handler issues. -/
def chatHandler (agentsUrl : String) (req : IncomingRequest)
    (oracle : AxiosRequestConfig → UpstreamOutcome) :
    List AxiosRequestConfig × HttpResponse :=
  let cfg := chatUpstreamRequest agentsUrl req.body
  (([cfg] : List AxiosRequestConfig), handleChat (oracle cfg))

/-- The full agents route handler, analogous to `chatHandler`. -/
def agentsHandler (agentsUrl : String)
    (oracle : AxiosRequestConfig → UpstreamOutcome) :
    List AxiosRequestConfig × HttpResponse :=
  let cfg := agentsUpstreamRequest agentsUrl
  (([cfg] : List AxiosRequestConfig), handleAgents (oracle cfg))

/-- Sequential processing of a batch of chat requests by the server: each is
handled by `chatHandler` with the fixed configuration; no state flows from
one request to the next. -/
def processChatRequests (agentsUrl : String)
    (oracle : AxiosRequestConfig → UpstreamOutcome) :
    List IncomingRequest → List HttpResponse
  | [] => []
  | r :: rs =>
      (chatHandler agentsUrl r oracle).2 :: processChatRequests agentsUrl oracle rs

/-- `process.env.PORT || 3000`: the JS `||` falls back to the numeric default
when the variable is unset or the empty string; otherwise the raw string
value is used. -/
inductive ConfigValue where
  | str (s : String) : ConfigValue
  | num (n : Nat) : ConfigValue
deriving Repr

/-- Resolution of the listening port from the environment at startup. -/
def resolvePORT (env : Option String) : ConfigValue :=
  match env with
  | some s => if s = "" then .num 3000 else .str s
  | none => .num 3000

/-- Resolution of the upstream base address `AGENTS_URL` from the environment
at startup. -/
def resolveAGENTS_URL (env : Option String) : String :=
  match env with
  | some s => if s = "" then "http://localhost:7777" else s
  | none => "http://localhost:7777"

/-- Modelled from the spec and the express `send` library (the `res.sendFile`
call's file-serving behaviour is library code not present in this
repository): serving a file returns its content with status 200 when the
file exists, and a not-found status 404 when it is missing.  `fs` maps a
path to the file's content when present. -/
def sendFile (fs : String → Option String) (p : String) : HttpResponse :=
  match fs p with
  | some content => { status := 200, body := .str content }
  | none => { status := 404, body := .str "Not Found" }

/-- The root route `app.get('/')`: serve `__dirname/src/index.html`. -/
def serveRoot (fs : String → Option String) (dirname : String) : HttpResponse :=
  sendFile fs (dirname ++ "/src/index.html")

/-- The agents list of the spec's stub-upstream scenario. -/
def agentsListJson : Json :=
  .obj [("agents", .arr [.str "github-analyst", .str "research-assistant"])]

/-! Helper lemmas shared by several theorems. -/

lemma handleChat_of_failed (o : UpstreamOutcome) (h : upstreamFailed o = true) :
    handleChat o = ⟨500, chatErrorBody⟩ := by
  cases hr : axiosResolve o with
  | ok r => simp [upstreamFailed, hr] at h
  | error e => simp [handleChat, hr]

lemma handleAgents_of_failed (o : UpstreamOutcome) (h : upstreamFailed o = true) :
    handleAgents o = ⟨500, agentsErrorBody⟩ := by
  cases hr : axiosResolve o with
  | ok r => simp [upstreamFailed, hr] at h
  | error e => simp [handleAgents, hr]

lemma handleChat_of_ok (r : UpstreamResponse) (h : validateStatus r.status = true) :
    handleChat (.response r) = ⟨200, r.data⟩ := by
  simp [handleChat, axiosResolve, h]

lemma handleAgents_of_ok (r : UpstreamResponse) (h : validateStatus r.status = true) :
    handleAgents (.response r) = ⟨200, r.data⟩ := by
  simp [handleAgents, axiosResolve, h]

/-- C1 counterexample: the upstream call succeeds with status 201 (axios
resolves any 2xx), but the proxy's response carries status 200, not the
upstream's 201 — `res.json(response.data)` never copies the upstream status. -/
theorem C1_counterexample :
    axiosResolve (.response ⟨201, .null⟩) = .ok ⟨201, .null⟩ ∧
    (handleChat (.response ⟨201, .null⟩)).status = 200 ∧
    (handleChat (.response ⟨201, .null⟩)).status ≠ 201 := by
  refine ⟨rfl, rfl, by decide⟩

/-- C1 (amended): for every POST to /api/chat whose upstream call succeeds
(axios resolves, i.e. upstream status is 2xx), the proxy responds with the
upstream's JSON body unmodified and with status 200 — which coincides with
the upstream status exactly when that status is 200. -/
theorem C1_success_passthrough (r : UpstreamResponse)
    (h : validateStatus r.status = true) :
    handleChat (.response r) = ⟨200, r.data⟩ ∧
    (r.status = 200 → (handleChat (.response r)).status = r.status) := by
  refine ⟨handleChat_of_ok r h, fun h200 => ?_⟩
  rw [handleChat_of_ok r h, h200]

theorem C1_success_passthrough_witness :
    validateStatus 200 = true ∧
    handleChat (.response ⟨200, .str "ok"⟩) = ⟨200, .str "ok"⟩ :=
  ⟨by decide, (C1_success_passthrough ⟨200, .str "ok"⟩ (by decide)).1⟩

/-- C2: every upstream failure of the chat route (connection refusal, non-2xx
status, timeout) yields status 500 with the constant body
`{"error": "Failed to communicate with agents service"}`, and every upstream
failure of the agents route yields status 500 with the constant body
`{"error": "Failed to get agents list"}`; both bodies are fixed constants, so
no upstream error text can be part of either response. -/
theorem C2_failure_masking (o : UpstreamOutcome) (h : upstreamFailed o = true) :
    handleChat o = ⟨500, chatErrorBody⟩ ∧
    handleAgents o = ⟨500, agentsErrorBody⟩ :=
  ⟨handleChat_of_failed o h, handleAgents_of_failed o h⟩

theorem C2_failure_masking_witness :
    upstreamFailed (.networkError "connect ECONNREFUSED") = true ∧
    handleChat (.networkError "connect ECONNREFUSED") = ⟨500, chatErrorBody⟩ ∧
    handleAgents (.networkError "connect ECONNREFUSED") = ⟨500, agentsErrorBody⟩ :=
  ⟨rfl, (C2_failure_masking (.networkError "connect ECONNREFUSED") rfl).1,
    (C2_failure_masking (.networkError "connect ECONNREFUSED") rfl).2⟩

/-- C3: the chat route issues exactly one upstream request, an HTTP POST to
`{AGENTS_URL}/chat`, whose JSON body is exactly the incoming request's parsed
body, unmodified. -/
theorem C3_forward_body_verbatim (url : String) (req : IncomingRequest)
    (oracle : AxiosRequestConfig → UpstreamOutcome) :
    (chatHandler url req oracle).1 = [chatUpstreamRequest url req.body] ∧
    (chatUpstreamRequest url req.body).url = url ++ "/chat" ∧
    (chatUpstreamRequest url req.body).method = "POST" ∧
    (chatUpstreamRequest url req.body).body = some req.body :=
  ⟨rfl, rfl, rfl, rfl⟩

/-- C4 counterexample: the upstream GET /agents succeeds with status 201, but
the proxy's response carries status 200, not the upstream's status — the
general "status unchanged" part of the claim fails. -/
theorem C4_counterexample :
    axiosResolve (.response ⟨201, agentsListJson⟩) = .ok ⟨201, agentsListJson⟩ ∧
    (handleAgents (.response ⟨201, agentsListJson⟩)).status = 200 ∧
    (handleAgents (.response ⟨201, agentsListJson⟩)).status ≠ 201 := by
  refine ⟨rfl, rfl, by decide⟩

/-- C4 (amended): for every GET to /api/agents whose upstream call succeeds,
the proxy returns the upstream's JSON body unmodified with status 200; in
particular, when the upstream returns the stub agents list with status 200,
the proxy returns the identical body with status 200. -/
theorem C4_success_passthrough :
    (∀ r : UpstreamResponse, validateStatus r.status = true →
        handleAgents (.response r) = ⟨200, r.data⟩) ∧
    handleAgents (.response ⟨200, agentsListJson⟩) = ⟨200, agentsListJson⟩ :=
  ⟨fun r h => handleAgents_of_ok r h,
    handleAgents_of_ok ⟨200, agentsListJson⟩ (by decide)⟩

theorem C4_success_passthrough_witness :
    validateStatus 200 = true ∧
    handleAgents (.response ⟨200, agentsListJson⟩) = ⟨200, agentsListJson⟩ :=
  ⟨by decide, C4_success_passthrough.1 ⟨200, agentsListJson⟩ (by decide)⟩

/-- C5 counterexample: neither upstream call configures a timeout — the axios
requests of both routes carry the default unbounded timeout (`none`), so the
upstream call is not bounded by a timeout. -/
theorem C5_counterexample :
    (chatUpstreamRequest "http://localhost:7777" (.obj [])).timeout = none ∧
    (agentsUpstreamRequest "http://localhost:7777").timeout = none :=
  ⟨rfl, rfl⟩

/-- C5 (amended): the upstream calls of both routes are made with no explicit
timeout (axios default, unbounded); if the transport nonetheless raises a
timeout error, each route treats it as an upstream failure and responds with
the generic 500 JSON error rather than leaving the request pending. -/
theorem C5_timeout_behavior (url : String) (b : Json) (msg : String) :
    (chatUpstreamRequest url b).timeout = none ∧
    (agentsUpstreamRequest url).timeout = none ∧
    handleChat (.timeout msg) = ⟨500, chatErrorBody⟩ ∧
    handleAgents (.timeout msg) = ⟨500, agentsErrorBody⟩ :=
  ⟨rfl, rfl, rfl, rfl⟩

/-- C6: a GET of the root path returns the UI entry document
`__dirname/src/index.html` with status 200 when the file exists, and status
404 when it is missing. -/
theorem C6_serve_root (fs : String → Option String) (dirname : String) :
    (∀ c, fs (dirname ++ "/src/index.html") = some c →
        serveRoot fs dirname = ⟨200, .str c⟩) ∧
    (fs (dirname ++ "/src/index.html") = none →
        (serveRoot fs dirname).status = 404) := by
  constructor
  · intro c hc
    simp [serveRoot, sendFile, hc]
  · intro hn
    simp [serveRoot, sendFile, hn]

theorem C6_serve_root_witness :
    serveRoot (fun p => if p = "/app/src/index.html" then some "<html>" else none)
        "/app" = ⟨200, .str "<html>"⟩ ∧
    (serveRoot (fun _ => none) "/app").status = 404 :=
  ⟨(C6_serve_root (fun p => if p = "/app/src/index.html" then some "<html>" else none)
      "/app").1 "<html>" (by decide),
    (C6_serve_root (fun _ => none) "/app").2 rfl⟩

/-- C7: with both configuration variables unset, the listening port resolves
to 3000 and the upstream base address resolves to http://localhost:7777;
the resolved base address is fixed for the process — every chat upstream call
under that configuration targets http://localhost:7777/chat and every agents
upstream call targets http://localhost:7777/agents. -/
theorem C7_defaults :
    resolvePORT none = .num 3000 ∧
    resolveAGENTS_URL none = "http://localhost:7777" ∧
    (∀ (req : IncomingRequest) (oracle : AxiosRequestConfig → UpstreamOutcome),
      ((chatHandler (resolveAGENTS_URL none) req oracle).1.map
          AxiosRequestConfig.url) = ["http://localhost:7777/chat"]) ∧
    (∀ (oracle : AxiosRequestConfig → UpstreamOutcome),
      ((agentsHandler (resolveAGENTS_URL none) oracle).1.map
          AxiosRequestConfig.url) = ["http://localhost:7777/agents"]) :=
  ⟨rfl, rfl, fun _ _ => rfl, fun _ => rfl⟩

/-- C8: each route performs exactly one upstream call per request (no
retries); every upstream outcome — success or any failure — is mapped to a
definite response (status 200 or 500), so no failure escapes the handler or
kills the process; and processing a batch of requests is pointwise, so each
request's handling is independent of every other request's. -/
theorem C8_isolation (url : String) (req : IncomingRequest)
    (oracle : AxiosRequestConfig → UpstreamOutcome)
    (reqs : List IncomingRequest) (o : UpstreamOutcome) :
    (chatHandler url req oracle).1.length = 1 ∧
    (agentsHandler url oracle).1.length = 1 ∧
    processChatRequests url oracle reqs
      = reqs.map (fun r => (chatHandler url r oracle).2) ∧
    ((handleChat o).status = 200 ∨ (handleChat o).status = 500) ∧
    ((handleAgents o).status = 200 ∨ (handleAgents o).status = 500) := by
  refine ⟨rfl, rfl, ?_, ?_, ?_⟩
  · induction reqs with
    | nil => rfl
    | cons r rs ih => simp [processChatRequests, ih]
  · cases hr : axiosResolve o with
    | ok r => left; simp [handleChat, hr]
    | error e => right; simp [handleChat, hr]
  · cases hr : axiosResolve o with
    | ok r => left; simp [handleAgents, hr]
    | error e => right; simp [handleAgents, hr]

/-- C9: only the parsed JSON body of a POST to /api/chat reaches the
upstream: two incoming requests with the same body but arbitrary different
headers and query parameters produce the same upstream call and the same
response, and the upstream request carries no forwarded headers. -/
theorem C9_only_body_forwarded (url : String)
    (oracle : AxiosRequestConfig → UpstreamOutcome)
    (r1 r2 : IncomingRequest) (h : r1.body = r2.body) :
    chatHandler url r1 oracle = chatHandler url r2 oracle ∧
    (chatUpstreamRequest url r1.body).headers = [] := by
  refine ⟨?_, rfl⟩
  simp [chatHandler, chatUpstreamRequest, h]

theorem C9_only_body_forwarded_witness :
    (⟨[("authorization", "Bearer secret")], [("q", "1")], .obj []⟩
        : IncomingRequest).body
      = (⟨[], [], .obj []⟩ : IncomingRequest).body ∧
    chatHandler "http://localhost:7777"
        ⟨[("authorization", "Bearer secret")], [("q", "1")], .obj []⟩
        (fun _ => .networkError "refused")
      = chatHandler "http://localhost:7777" ⟨[], [], .obj []⟩
        (fun _ => .networkError "refused") :=
  ⟨rfl, (C9_only_body_forwarded "http://localhost:7777"
      (fun _ => .networkError "refused")
      ⟨[("authorization", "Bearer secret")], [("q", "1")], .obj []⟩
      ⟨[], [], .obj []⟩ rfl).1⟩

/-- C10: any two upstream failures of the same endpoint — whatever their
cause or payload — produce identical responses to the caller, for the chat
route and for the agents route alike; the caller cannot distinguish the
failure cause from the response. -/
theorem C10_failure_indistinguishable (o1 o2 : UpstreamOutcome)
    (h1 : upstreamFailed o1 = true) (h2 : upstreamFailed o2 = true) :
    handleChat o1 = handleChat o2 ∧ handleAgents o1 = handleAgents o2 := by
  rw [handleChat_of_failed o1 h1, handleChat_of_failed o2 h2,
    handleAgents_of_failed o1 h1, handleAgents_of_failed o2 h2]
  exact ⟨rfl, rfl⟩

theorem C10_failure_indistinguishable_witness :
    upstreamFailed (.networkError "connect ECONNREFUSED") = true ∧
    upstreamFailed (.response ⟨503, .str "upstream stack trace"⟩) = true ∧
    handleChat (.networkError "connect ECONNREFUSED")
      = handleChat (.response ⟨503, .str "upstream stack trace"⟩) :=
  ⟨rfl, rfl,
    (C10_failure_indistinguishable (.networkError "connect ECONNREFUSED")
      (.response ⟨503, .str "upstream stack trace"⟩) rfl rfl).1⟩

end AgentUI
